import Mathlib

/-!
# Verification of the wallet-service ledger core

Shallow embedding of the wallet service (`src/controllers/walletController.ts`,
`src/middlwware/auth.ts`, `src/utils/wallet.ts`, `src/services/paystack.ts`,
`src/config/passport.ts`) and proofs of the specification claims about it.

Monetary amounts are modelled as rationals (`Rat`): the source stores balances
and transaction amounts as decimal numbers in major units (naira) and performs
exact-looking arithmetic on them (`increment` / `decrement` on a Prisma
`Decimal` column, plain `/ 100` on webhook amounts).

State is the pair of the wallet table and the transaction table.  Request
handlers are embedded as pure state transformers; each `prisma.$transaction`
block in the source becomes a single atomic step of the transformer.  Inputs
that the source receives from the outside (the generated reference, the
payment provider's success flag, the webhook payload) are explicit parameters.

Fields of the source's `Transaction` record that no operation ever reads back
(`description`, `paystackReference`, `authorizationUrl`, `senderId`,
`recipientId`, timestamps) are omitted from the embedding.
-/

namespace WalletService

/-- A row of the `Wallet` table: `id`, `userId` (one wallet per user),
`walletNumber` (13-digit public number) and `balance` in major units. -/
structure Wallet where
  id : Nat
  userId : Nat
  walletNumber : Nat
  balance : Rat
deriving Repr, DecidableEq

/-- The `Transaction.type` in the Prisma schema: `DEPOSIT` or `TRANSFER`. -/
inductive TxnType
  | DEPOSIT
  | TRANSFER
deriving Repr, DecidableEq

/-- The `Transaction.status` in the Prisma schema. -/
inductive TxnStatus
  | PENDING
  | SUCCESS
  | FAILED
deriving Repr, DecidableEq

/-- A row of the `Transaction` table (journal entry). -/
structure Txn where
  reference : String
  type_ : TxnType
  amount : Rat
  status : TxnStatus
  walletId : Nat
  recipientWalletId : Option Nat
deriving Repr, DecidableEq

/-- The shared mutable state: the wallet table and the transaction journal. -/
structure St where
  wallets : List Wallet
  txns : List Txn
deriving Repr, DecidableEq

/-- The `prisma.wallet.findUnique({ where: { userId } })`. -/
def findWalletByUserId (ws : List Wallet) (uid : Nat) : Option Wallet :=
  ws.find? (fun w => w.userId == uid)

/-- The `prisma.wallet.findUnique({ where: { id } })`. -/
def findWalletById (ws : List Wallet) (i : Nat) : Option Wallet :=
  ws.find? (fun w => w.id == i)

/-- The `prisma.wallet.findUnique({ where: { walletNumber } })`. -/
def findWalletByNumber (ws : List Wallet) (n : Nat) : Option Wallet :=
  ws.find? (fun w => w.walletNumber == n)

/-- The `prisma.transaction.findUnique({ where: { reference } })`. -/
def findTxnByReference (ts : List Txn) (ref : String) : Option Txn :=
  ts.find? (fun t => t.reference == ref)

/-- The `prisma.wallet.update({ where: { id }, data: { balance: { increment: δ } } })`
(a decrement is an increment of a negative amount). -/
def creditWallet (ws : List Wallet) (i : Nat) (δ : Rat) : List Wallet :=
  ws.map (fun w => if w.id == i then { w with balance := w.balance + δ } else w)

/-- The `prisma.transaction.update({ where: { id }, data: { status } })`, keyed here
by the reference of the row `findTxnByReference` returned: exactly the first
matching row is updated. -/
def setTxnStatus : List Txn → String → TxnStatus → List Txn
  | [], _, _ => []
  | t :: ts, ref, st =>
    if t.reference == ref then { t with status := st } :: ts
    else t :: setTxnStatus ts ref st

/-- Balance read used in the statements: the balance of the wallet row
`findWalletById` returns, or `0` when no such row exists. -/
def balanceOfW (ws : List Wallet) (i : Nat) : Rat :=
  match findWalletById ws i with
  | some w => w.balance
  | none => 0

/-! ## `POST /wallet/deposit` — `depositFunds` -/

/-- Outcomes of `depositFunds`. -/
inductive DepositResult
  | validationError
  | walletNotFound
  | providerError
  | ok (reference : String)
deriving Repr, DecidableEq

/-- The `depositFunds` (walletController.ts lines 22–102): validate
`amount >= 100`, look up the caller's wallet, call Paystack
(`initializeTransaction`, whose success is the `providerOk` input), and only
on provider success insert a `PENDING` `DEPOSIT` transaction.  No wallet
balance is touched. -/
def depositFunds (s : St) (userId : Nat) (amount : Rat) (reference : String)
    (providerOk : Bool) : St × DepositResult :=
  if amount < 100 then (s, .validationError)
  else
    match findWalletByUserId s.wallets userId with
    | none => (s, .walletNotFound)
    | some w =>
      if providerOk then
        ({ s with
            txns := s.txns ++ [⟨reference, .DEPOSIT, amount, .PENDING, w.id, none⟩] },
          .ok reference)
      else (s, .providerError)

/-! ## `POST /wallet/paystack/webhook` — `paystackWebhook`

The signature check and the `charge.success` event filter happen before the
part modelled here; the embedding covers the processing of a
`charge.success` payload carrying `(reference, amount, status)`.
`statusSuccess` is `body.data.status === 'success'` and `webhookAmount` is
`body.data.amount` (in kobo, the provider's minor unit). -/

/-- Outcomes of `paystackWebhook` for a `charge.success` event. -/
inductive WebhookResult
  | txnNotFound
  | alreadyProcessed
  | processed
  | internalError
deriving Repr, DecidableEq

/-- The `paystackWebhook` (walletController.ts lines 145–196): look up the
transaction by reference; if its status is already `SUCCESS` return without
any action; otherwise convert kobo to naira (`amount / 100`) and, in one
atomic `prisma.$transaction`, set the status (`SUCCESS` on a success payload,
`FAILED` otherwise) and credit the wallet on success.  If the wallet row is
missing the atomic block throws and rolls back, leaving the state unchanged. -/
def paystackWebhook (s : St) (reference : String) (statusSuccess : Bool)
    (webhookAmount : Rat) : St × WebhookResult :=
  match findTxnByReference s.txns reference with
  | none => (s, .txnNotFound)
  | some t =>
    if t.status == .SUCCESS then (s, .alreadyProcessed)
    else
      let amountInNaira := webhookAmount / 100
      if statusSuccess then
        match findWalletById s.wallets t.walletId with
        | none => (s, .internalError)
        | some _ =>
          ({ wallets := creditWallet s.wallets t.walletId amountInNaira,
             txns := setTxnStatus s.txns reference .SUCCESS }, .processed)
      else
        ({ s with txns := setTxnStatus s.txns reference .FAILED }, .processed)

/-! ## `POST /wallet/transfer` — `transferFunds` -/

/-- Outcomes of `transferFunds`. -/
inductive TransferResult
  | validationError
  | senderNotFound
  | recipientNotFound
  | selfTransfer
  | insufficientBalance
  | ok (reference : String)
deriving Repr, DecidableEq

/-- The `transferFunds` (walletController.ts lines 306–444): validate the payload
(13-digit wallet number, `amount >= 1`), resolve sender (by `userId`) and
recipient (by wallet number), reject self-transfer (`senderWallet.id ===
recipientWallet.id`) and insufficient balance, then in one atomic
`prisma.$transaction` debit the sender, credit the recipient and insert the
two `TRANSFER` journal rows `reference_debit` (amount `-amount`) and
`reference_credit` (amount `+amount`), both `SUCCESS`. -/
def transferFunds (s : St) (userId : Nat) (walletNumber : Nat) (amount : Rat)
    (reference : String) : St × TransferResult :=
  if (toString walletNumber).length ≠ 13 ∨ amount < 1 then (s, .validationError)
  else
    match findWalletByUserId s.wallets userId with
    | none => (s, .senderNotFound)
    | some sender =>
      match findWalletByNumber s.wallets walletNumber with
      | none => (s, .recipientNotFound)
      | some recipient =>
        if sender.id == recipient.id then (s, .selfTransfer)
        else if sender.balance < amount then (s, .insufficientBalance)
        else
          ({ wallets :=
              creditWallet (creditWallet s.wallets sender.id (-amount))
                recipient.id amount,
             txns := s.txns ++
               [⟨reference ++ "_debit", .TRANSFER, -amount, .SUCCESS,
                  sender.id, some recipient.id⟩,
                ⟨reference ++ "_credit", .TRANSFER, amount, .SUCCESS,
                  recipient.id, some sender.id⟩] },
            .ok reference)

/-! ## Wallet creation — `generateWalletNumber` and the Google-login callback -/

/-- The `generateWalletNumber` (utils/wallet.ts): a single uniform draw
`Math.floor(Math.random() * (max - min + 1)) + min` with `min = 10^12` and
`max = 9999999999999`.  `r` stands for the value of
`Math.floor(Math.random() * 9000000000000)`, so the draw is `r` reduced into
`[0, 9 * 10^12)` and shifted by `10^12`. -/
def generateWalletNumber (r : Nat) : Nat :=
  1000000000000 + r % 9000000000000

/-- Wallet creation inside the Google OAuth verify callback
(config/passport.ts lines 46–74): `tx.wallet.create({ walletNumber:
generateWalletNumber(), userId, balance: 0 })`.  The number is drawn once
and inserted directly — existing wallet numbers are not consulted before
the insert and the draw is never retried.  The `walletNumber` column is
unique in the schema (`prisma.wallet.findUnique({ where: { walletNumber } })`
in `transferFunds`, walletController.ts line 341, requires `@unique`), so an
insert whose drawn number collides with an existing row throws a
unique-constraint violation and the surrounding `$transaction` rolls back:
creation fails and no wallet is committed, modelled as `none`. -/
def createWalletForOwner (ws : List Wallet) (newId ownerId r : Nat) :
    Option (List Wallet) :=
  if ws.any (fun w => w.walletNumber == generateWalletNumber r) then none
  else some (ws ++ [⟨newId, ownerId, generateWalletNumber r, 0⟩])

/-! ## Paystack amount conversion (services/paystack.ts) -/

/-- The kobo amount sent to Paystack by `initializeTransaction`
(paystack.ts line 29): `Math.round(amount * 100)`.  JavaScript `Math.round`
is `⌊x + 1/2⌋`, which is Mathlib's `round`. -/
def initializeTransactionKobo (amount : Rat) : Int :=
  round (amount * 100)

/-- The naira amount the webhook credits (walletController.ts line 167):
`amount / 100`. -/
def webhookAmountToNaira (amount : Rat) : Rat :=
  amount / 100

/-! ## Authentication middleware (middlwware/auth.ts) -/

/-- The `req.authType` set by `authenticate`. -/
inductive AuthType
  | jwt
  | apikey
deriving Repr, DecidableEq

/-- The authentication context `authenticate` leaves on the request:
`req.authType` and `req.permissions`. -/
structure AuthCtx where
  authType : AuthType
  permissions : List String
deriving Repr, DecidableEq

/-- The context produced by the JWT branch of `authenticate`
(auth.ts lines 57–62): `authType = 'jwt'`, `permissions = ['*']`. -/
def jwtAuthCtx : AuthCtx :=
  { authType := .jwt, permissions := ["*"] }

/-- The context produced by the API-key branch of `authenticate`
(auth.ts lines 108–113): `authType = 'apikey'` and the key's permission
list. -/
def apiKeyAuthCtx (perms : List String) : AuthCtx :=
  { authType := .apikey, permissions := perms }

/-- The `requirePermission` (auth.ts lines 144–161): JWT callers pass
unconditionally; API-key callers pass iff the permission is in the key's
list.  `true` means `next()` is called, `false` means the 403 response. -/
def requirePermission (permission : String) (ctx : AuthCtx) : Bool :=
  if ctx.authType == .jwt then true
  else ctx.permissions.contains permission

/-! ## Operation sequences

A request against the service is one of the three state-changing handlers
together with its inputs.  `runOps` replays a sequence of requests, which is
the sequential model of the server processing them one after the other. -/

/-- One state-changing request with all its external inputs. -/
inductive Op
  | deposit (userId : Nat) (amount : Rat) (reference : String) (providerOk : Bool)
  | webhook (reference : String) (statusSuccess : Bool) (webhookAmount : Rat)
  | transfer (userId : Nat) (walletNumber : Nat) (amount : Rat) (reference : String)
deriving Repr, DecidableEq

/-- The state after one request (the handlers defined above). -/
def runOp (s : St) : Op → St
  | .deposit u a ref ok => (depositFunds s u a ref ok).1
  | .webhook ref stS amt => (paystackWebhook s ref stS amt).1
  | .transfer u wn a ref => (transferFunds s u wn a ref).1

/-- Replay a sequence of requests. -/
def runOps (s : St) : List Op → St
  | [] => s
  | op :: ops => runOps (runOp s op) ops

/-- The amount carried by a webhook request (`0` for the others); used to
state that the payment provider only ever reports non-negative amounts. -/
def opWebhookAmount : Op → Rat
  | .webhook _ _ amt => amt
  | _ => 0

/-- The balance deltas a request is *accepted* to apply, as
`(walletId, delta)` pairs: empty whenever the handler rejects the request or
takes a branch that does not touch balances. -/
def opDeltas (s : St) : Op → List (Nat × Rat)
  | .deposit _ _ _ _ => []
  | .webhook ref stS amt =>
    match findTxnByReference s.txns ref with
    | none => []
    | some t =>
      if t.status == .SUCCESS then []
      else if stS then
        match findWalletById s.wallets t.walletId with
        | none => []
        | some _ => [(t.walletId, amt / 100)]
      else []
  | .transfer u wn a _ =>
    if (toString wn).length ≠ 13 ∨ a < 1 then []
    else
      match findWalletByUserId s.wallets u with
      | none => []
      | some sender =>
        match findWalletByNumber s.wallets wn with
        | none => []
        | some recipient =>
          if sender.id == recipient.id then []
          else if sender.balance < a then []
          else [(sender.id, -a), (recipient.id, a)]

/-- The accepted deltas of a whole request sequence, in order. -/
def seqDeltas (s : St) : List Op → List (Nat × Rat)
  | [] => []
  | op :: ops => opDeltas s op ++ seqDeltas (runOp s op) ops

/-- Total delta a list of `(walletId, delta)` pairs applies to wallet `j`. -/
def deltaFor (j : Nat) : List (Nat × Rat) → Rat
  | [] => 0
  | p :: rest => (if p.1 = j then p.2 else 0) + deltaFor j rest

/-- The `n` webhook deliveries of the same success payload for `ref`, one after
the other. -/
def iterWebhook (ref : String) (amt : Rat) : Nat → St → St
  | 0, s => s
  | n + 1, s => iterWebhook ref amt n (paystackWebhook s ref true amt).1

/-! ## Concrete states used in counterexamples and witnesses -/

/-- A wallet holding a deposit entry that already reached the terminal
status `FAILED`. -/
def failedDepositSt : St :=
  ⟨[⟨1, 1, 1000000000000, 0⟩], [⟨"r", .DEPOSIT, 5000, .FAILED, 1, none⟩]⟩

/-- A wallet with a `PENDING` deposit entry recorded for 5000 naira. -/
def pendingDepositSt : St :=
  ⟨[⟨1, 1, 1000000000000, 0⟩], [⟨"r", .DEPOSIT, 5000, .PENDING, 1, none⟩]⟩

/-- A single empty wallet for user 1. -/
def oneWalletSt : St :=
  ⟨[⟨1, 1, 1000000000000, 0⟩], []⟩

/-- Two wallets: user 1 with balance 100 and user 2 with balance 5. -/
def twoWalletSt : St :=
  ⟨[⟨1, 1, 1000000000001, 100⟩, ⟨2, 2, 1000000000002, 5⟩], []⟩

/-- A pre-existing wallet whose number is the one `generateWalletNumber`
produces on draw `0`. -/
def w0 : Wallet :=
  ⟨1, 1, generateWalletNumber 0, 0⟩

/-- A wallet holding a deposit entry already confirmed as `SUCCESS`. -/
def successDepositSt : St :=
  ⟨[⟨1, 1, 1000000000000, 5000⟩], [⟨"r", .DEPOSIT, 5000, .SUCCESS, 1, none⟩]⟩

/-! ## Helper lemmas about the store primitives -/

/-- The `creditWallet` commutes with lookup by id: the looked-up row is the old
row, with the delta applied when its id is the credited one. -/
theorem findWalletById_creditWallet (ws : List Wallet) (i j : Nat) (δ : Rat) :
    findWalletById (creditWallet ws i δ) j =
      (findWalletById ws j).map
        (fun w => if w.id == i then { w with balance := w.balance + δ } else w) := by
  unfold findWalletById creditWallet
  rw [List.find?_map]
  have hp : ((fun w : Wallet => w.id == j) ∘ fun w =>
      if w.id == i then { w with balance := w.balance + δ } else w) =
      fun w : Wallet => w.id == j := by
    funext w
    by_cases h : w.id == i <;> simp [h, Function.comp]
  rw [hp]

/-- The `creditWallet` does not change the ids of the rows. -/
theorem creditWallet_map_id (ws : List Wallet) (i : Nat) (δ : Rat) :
    (creditWallet ws i δ).map Wallet.id = ws.map Wallet.id := by
  unfold creditWallet
  rw [List.map_map]
  have hp : (Wallet.id ∘ fun w =>
      if w.id == i then { w with balance := w.balance + δ } else w) =
      Wallet.id := by
    funext w
    by_cases h : w.id == i <;> simp [h, Function.comp]
  rw [hp]

/-- Crediting one wallet leaves every other balance unchanged. -/
theorem balanceOfW_creditWallet_ne (ws : List Wallet) (i j : Nat) (δ : Rat)
    (h : j ≠ i) :
    balanceOfW (creditWallet ws i δ) j = balanceOfW ws j := by
  unfold balanceOfW
  rw [findWalletById_creditWallet]
  cases hf : findWalletById ws j with
  | none => rfl
  | some w =>
    have hwj : w.id = j := by simpa using List.find?_some hf
    simp [hwj, h]

/-- Crediting an existing wallet adds exactly the delta to its balance. -/
theorem balanceOfW_creditWallet_self (ws : List Wallet) (i : Nat) (δ : Rat)
    (h : (findWalletById ws i).isSome) :
    balanceOfW (creditWallet ws i δ) i = balanceOfW ws i + δ := by
  unfold balanceOfW
  rw [findWalletById_creditWallet]
  cases hf : findWalletById ws i with
  | none => rw [hf] at h; simp at h
  | some w =>
    have hwi : w.id = i := by simpa using List.find?_some hf
    simp [hwi]

/-- A non-negative credit keeps all balances non-negative. -/
theorem creditWallet_nonneg (ws : List Wallet) (i : Nat) (δ : Rat)
    (hws : ∀ w ∈ ws, 0 ≤ w.balance) (hδ : 0 ≤ δ) :
    ∀ w ∈ creditWallet ws i δ, 0 ≤ w.balance := by
  intro w hw
  unfold creditWallet at hw
  obtain ⟨v, hv, rfl⟩ := List.mem_map.mp hw
  by_cases h : v.id == i
  · simpa [h] using add_nonneg (hws v hv) hδ
  · simpa [h] using hws v hv

/-- Debiting a wallet that covers the amount keeps all balances
non-negative (ids must be unique so only the covered row is debited). -/
theorem creditWallet_debit_nonneg (ws : List Wallet) (sender : Wallet) (a : Rat)
    (hws : ∀ w ∈ ws, 0 ≤ w.balance)
    (hnd : (ws.map Wallet.id).Nodup)
    (hmem : sender ∈ ws) (hbal : a ≤ sender.balance) :
    ∀ w ∈ creditWallet ws sender.id (-a), 0 ≤ w.balance := by
  intro w hw
  unfold creditWallet at hw
  obtain ⟨v, hv, rfl⟩ := List.mem_map.mp hw
  by_cases h : v.id == sender.id
  · have hv_eq : v = sender :=
      List.inj_on_of_nodup_map hnd hv hmem (by simpa using h)
    subst hv_eq
    simp only [h, if_true]
    linarith
  · simpa [h] using hws v hv

/-- The `setTxnStatus` commutes with lookup by reference. -/
theorem findTxnByReference_setTxnStatus (ts : List Txn) (ref : String)
    (st : TxnStatus) :
    findTxnByReference (setTxnStatus ts ref st) ref =
      (findTxnByReference ts ref).map (fun t => { t with status := st }) := by
  induction ts with
  | nil => rfl
  | cons t ts ih =>
    by_cases h : t.reference == ref
    · simp [setTxnStatus, findTxnByReference, List.find?, h]
    · simpa [setTxnStatus, findTxnByReference, List.find?, h] using ih

/-- The `depositFunds` never touches the wallet table. -/
theorem depositFunds_wallets (s : St) (u : Nat) (a : Rat) (ref : String)
    (ok : Bool) :
    (depositFunds s u a ref ok).1.wallets = s.wallets := by
  unfold depositFunds
  split
  · rfl
  · split
    · rfl
    · split <;> rfl

/-- Delivering the same success webhook twice in a row is the same as
delivering it once: the second delivery finds the entry already `SUCCESS`
(or still absent, or with a missing wallet row) and leaves the state as it
was. -/
theorem paystackWebhook_success_idem (s : St) (ref : String) (amt : Rat) :
    (paystackWebhook (paystackWebhook s ref true amt).1 ref true amt).1 =
      (paystackWebhook s ref true amt).1 := by
  cases hf : findTxnByReference s.txns ref with
  | none => simp [paystackWebhook, hf]
  | some t =>
    by_cases hst : t.status == .SUCCESS
    · simp [paystackWebhook, hf, hst]
    · cases hw : findWalletById s.wallets t.walletId with
      | none => simp [paystackWebhook, hf, hst, hw]
      | some w =>
        have h1 : (paystackWebhook s ref true amt).1 =
            ⟨creditWallet s.wallets t.walletId (amt / 100),
             setTxnStatus s.txns ref .SUCCESS⟩ := by
          simp [paystackWebhook, hf, hst, hw]
        rw [h1]
        have h2 : findTxnByReference (setTxnStatus s.txns ref .SUCCESS) ref =
            some { t with status := .SUCCESS } := by
          rw [findTxnByReference_setTxnStatus, hf]; rfl
        simp [paystackWebhook, h2]

/-- One success delivery, unfolded. -/
theorem iterWebhook_one (ref : String) (amt : Rat) (s : St) :
    iterWebhook ref amt 1 s = (paystackWebhook s ref true amt).1 := rfl

/-- The `n + 1` identical success deliveries are the same as one. -/
theorem iterWebhook_succ_eq_one (ref : String) (amt : Rat) :
    ∀ (n : Nat) (s : St),
      iterWebhook ref amt (n + 1) s = iterWebhook ref amt 1 s := by
  intro n
  induction n with
  | zero => intro s; rfl
  | succ n ih =>
    intro s
    show iterWebhook ref amt (n + 1) (paystackWebhook s ref true amt).1 =
      iterWebhook ref amt 1 s
    rw [ih (paystackWebhook s ref true amt).1]
    exact paystackWebhook_success_idem s ref amt

/-! ## Claim C1 — terminal entries and webhook replay -/

/-- Claim C1, counterexample.  The idempotency guard only checks for
`SUCCESS`: a deposit entry already in the terminal status `FAILED` is
re-processed by a later success webhook — its status changes to `SUCCESS`
and the wallet balance changes — contradicting the claim that every
terminal (`success` or `failed`) entry is left untouched. -/
theorem webhook_reprocesses_failed_entry :
    (findTxnByReference failedDepositSt.txns "r").map Txn.status =
      some TxnStatus.FAILED ∧
    (findTxnByReference
        (paystackWebhook failedDepositSt "r" true 500000).1.txns "r").map
        Txn.status = some TxnStatus.SUCCESS ∧
    balanceOfW failedDepositSt.wallets 1 = 0 ∧
    balanceOfW (paystackWebhook failedDepositSt "r" true 500000).1.wallets 1 =
      5000 := by
  norm_num [failedDepositSt, paystackWebhook, findTxnByReference,
    findWalletById, setTxnStatus, creditWallet, balanceOfW, List.find?]

/-- Claim C1, amended.  For every journal entry whose status is already
`SUCCESS`, a subsequent webhook delivery for the same reference performs no
further action: the state (entry status and all balances) is unchanged and
the handler answers "already processed".  (Entries in the terminal status
`FAILED` are not protected by the guard.) -/
theorem webhook_noop_on_success_entry (s : St) (ref : String)
    (statusSuccess : Bool) (amt : Rat) (t : Txn)
    (ht : findTxnByReference s.txns ref = some t)
    (hst : t.status = .SUCCESS) :
    paystackWebhook s ref statusSuccess amt = (s, .alreadyProcessed) := by
  simp [paystackWebhook, ht, hst]

/-- Witness for `webhook_noop_on_success_entry` at a concrete state. -/
theorem webhook_noop_on_success_entry_witness :
    findTxnByReference successDepositSt.txns "r" =
      some ⟨"r", .DEPOSIT, 5000, .SUCCESS, 1, none⟩ ∧
    paystackWebhook successDepositSt "r" true 500000 =
      (successDepositSt, .alreadyProcessed) := by
  have ht : findTxnByReference successDepositSt.txns "r" =
      some ⟨"r", .DEPOSIT, 5000, .SUCCESS, 1, none⟩ := by
    norm_num [successDepositSt, findTxnByReference, List.find?]
  exact ⟨ht, webhook_noop_on_success_entry successDepositSt "r" true 500000 _ ht rfl⟩

/-! ## Claim C3 — N-fold confirmation credits once -/

/-- Claim C3.  For a reference created by a successful `depositFunds` call,
delivering the same success confirmation `N ≥ 1` times produces exactly the
state one delivery produces — in particular every wallet balance after `N`
deliveries equals the balance after one, so the wallet is credited exactly
once. -/
theorem confirmDeposit_idempotent (s : St) (u : Nat) (a : Rat) (ref : String)
    (amt : Rat) (N : Nat) (hN : 1 ≤ N)
    (hdep : (depositFunds s u a ref true).2 = .ok ref) :
    iterWebhook ref amt N (depositFunds s u a ref true).1 =
      iterWebhook ref amt 1 (depositFunds s u a ref true).1 ∧
    ∀ j,
      balanceOfW
          (iterWebhook ref amt N (depositFunds s u a ref true).1).wallets j =
        balanceOfW
          (iterWebhook ref amt 1 (depositFunds s u a ref true).1).wallets j := by
  obtain ⟨n, rfl⟩ : ∃ n, N = n + 1 := ⟨N - 1, by omega⟩
  refine ⟨iterWebhook_succ_eq_one ref amt n _, fun j => ?_⟩
  rw [iterWebhook_succ_eq_one ref amt n _]

/-- Witness for `confirmDeposit_idempotent` with `N = 3`. -/
theorem confirmDeposit_idempotent_witness :
    1 ≤ 3 ∧
    (depositFunds oneWalletSt 1 5000 "TXN_1" true).2 = .ok "TXN_1" ∧
    (iterWebhook "TXN_1" 500000 3 (depositFunds oneWalletSt 1 5000 "TXN_1" true).1 =
        iterWebhook "TXN_1" 500000 1 (depositFunds oneWalletSt 1 5000 "TXN_1" true).1 ∧
      ∀ j,
        balanceOfW (iterWebhook "TXN_1" 500000 3
            (depositFunds oneWalletSt 1 5000 "TXN_1" true).1).wallets j =
          balanceOfW (iterWebhook "TXN_1" 500000 1
            (depositFunds oneWalletSt 1 5000 "TXN_1" true).1).wallets j) := by
  have hdep : (depositFunds oneWalletSt 1 5000 "TXN_1" true).2 = .ok "TXN_1" := by
    norm_num [oneWalletSt, depositFunds, findWalletByUserId, List.find?]
  exact ⟨by norm_num, hdep,
    confirmDeposit_idempotent oneWalletSt 1 5000 "TXN_1" 500000 3 (by norm_num) hdep⟩

/-! ## Claim C2 — transfer atomicity -/

/-- Claim C2.  If `transferFunds` answers success, the sender's balance
decreased by exactly the amount, the recipient's increased by exactly the
amount, and exactly the two journal rows `reference_debit` (amount `-a`,
`SUCCESS`) and `reference_credit` (amount `+a`, `SUCCESS`) were appended —
given that the reference root is fresh, they are the only two entries with
those references.  If it answers insufficient-balance, the sender's balance
was below the amount and nothing changed. -/
theorem transfer_atomicity (s : St) (u wn : Nat) (a : Rat) (ref : String)
    (sender recipient : Wallet)
    (hs : findWalletByUserId s.wallets u = some sender)
    (hr : findWalletByNumber s.wallets wn = some recipient)
    (hfresh : ∀ t ∈ s.txns,
      t.reference ≠ ref ++ "_debit" ∧ t.reference ≠ ref ++ "_credit") :
    (∀ r, (transferFunds s u wn a ref).2 = .ok r →
      balanceOfW (transferFunds s u wn a ref).1.wallets sender.id =
        balanceOfW s.wallets sender.id - a ∧
      balanceOfW (transferFunds s u wn a ref).1.wallets recipient.id =
        balanceOfW s.wallets recipient.id + a ∧
      (transferFunds s u wn a ref).1.txns = s.txns ++
        [⟨ref ++ "_debit", .TRANSFER, -a, .SUCCESS, sender.id, some recipient.id⟩,
         ⟨ref ++ "_credit", .TRANSFER, a, .SUCCESS, recipient.id, some sender.id⟩] ∧
      ((transferFunds s u wn a ref).1.txns.filter
          (fun t => t.reference == ref ++ "_debit" ||
            t.reference == ref ++ "_credit")).length = 2) ∧
    ((transferFunds s u wn a ref).2 = .insufficientBalance →
      sender.balance < a ∧ (transferFunds s u wn a ref).1 = s) := by
  have hsend_mem : sender ∈ s.wallets := List.mem_of_find?_eq_some hs
  have hrec_mem : recipient ∈ s.wallets := List.mem_of_find?_eq_some hr
  have hsend_some : (findWalletById s.wallets sender.id).isSome :=
    List.find?_isSome.mpr ⟨sender, hsend_mem, by simp⟩
  have hrec_some : (findWalletById s.wallets recipient.id).isSome :=
    List.find?_isSome.mpr ⟨recipient, hrec_mem, by simp⟩
  by_cases hval : (toString wn).length ≠ 13 ∨ a < 1
  · have hT : transferFunds s u wn a ref = (s, .validationError) := by
      simp [transferFunds, hval]
    rw [hT]
    exact ⟨fun r h => by simp at h, fun h => by simp at h⟩
  · by_cases hself : sender.id = recipient.id
    · have hT : transferFunds s u wn a ref = (s, .selfTransfer) := by
        simp [transferFunds, hval, hs, hr, hself]
      rw [hT]
      exact ⟨fun r h => by simp at h, fun h => by simp at h⟩
    · by_cases hib : sender.balance < a
      · have hT : transferFunds s u wn a ref = (s, .insufficientBalance) := by
          simp [transferFunds, hval, hs, hr, hself, hib]
        rw [hT]
        exact ⟨fun r h => by simp at h, fun _ => ⟨hib, rfl⟩⟩
      · have hT : transferFunds s u wn a ref =
            ({ wallets :=
                creditWallet (creditWallet s.wallets sender.id (-a))
                  recipient.id a,
               txns := s.txns ++
                 [⟨ref ++ "_debit", .TRANSFER, -a, .SUCCESS,
                    sender.id, some recipient.id⟩,
                  ⟨ref ++ "_credit", .TRANSFER, a, .SUCCESS,
                    recipient.id, some sender.id⟩] }, .ok ref) := by
          simp [transferFunds, hval, hs, hr, hself, hib]
        rw [hT]
        refine ⟨fun r _ => ⟨?_, ?_, rfl, ?_⟩, fun h => by simp at h⟩
        · rw [balanceOfW_creditWallet_ne _ _ _ _ (by simpa using hself),
            balanceOfW_creditWallet_self _ _ _ hsend_some]
          ring
        · rw [balanceOfW_creditWallet_self]
          · rw [balanceOfW_creditWallet_ne _ _ _ _ fun h => hself h.symm]
          · rw [findWalletById_creditWallet, Option.isSome_map']
            exact hrec_some
        · rw [List.filter_append]
          have hnil : s.txns.filter
              (fun t => t.reference == ref ++ "_debit" ||
                t.reference == ref ++ "_credit") = [] := by
            rw [List.filter_eq_nil_iff]
            intro t ht
            simpa using hfresh t ht
          rw [hnil]
          simp

/-- Witness for `transfer_atomicity`: user 1 transfers 30 to wallet
`1000000000002` out of a balance of 100. -/
theorem transfer_atomicity_witness :
    findWalletByUserId twoWalletSt.wallets 1 =
      some ⟨1, 1, 1000000000001, 100⟩ ∧
    findWalletByNumber twoWalletSt.wallets 1000000000002 =
      some ⟨2, 2, 1000000000002, 5⟩ ∧
    (∀ t ∈ twoWalletSt.txns,
      t.reference ≠ "TXN_2" ++ "_debit" ∧ t.reference ≠ "TXN_2" ++ "_credit") ∧
    ((∀ r, (transferFunds twoWalletSt 1 1000000000002 30 "TXN_2").2 = .ok r →
      balanceOfW (transferFunds twoWalletSt 1 1000000000002 30 "TXN_2").1.wallets 1 =
        balanceOfW twoWalletSt.wallets 1 - 30 ∧
      balanceOfW (transferFunds twoWalletSt 1 1000000000002 30 "TXN_2").1.wallets 2 =
        balanceOfW twoWalletSt.wallets 2 + 30 ∧
      (transferFunds twoWalletSt 1 1000000000002 30 "TXN_2").1.txns =
        twoWalletSt.txns ++
        [⟨"TXN_2" ++ "_debit", .TRANSFER, -30, .SUCCESS, 1, some 2⟩,
         ⟨"TXN_2" ++ "_credit", .TRANSFER, 30, .SUCCESS, 2, some 1⟩] ∧
      ((transferFunds twoWalletSt 1 1000000000002 30 "TXN_2").1.txns.filter
          (fun t => t.reference == "TXN_2" ++ "_debit" ||
            t.reference == "TXN_2" ++ "_credit")).length = 2) ∧
    ((transferFunds twoWalletSt 1 1000000000002 30 "TXN_2").2 = .insufficientBalance →
      (100 : Rat) < 30 ∧
        (transferFunds twoWalletSt 1 1000000000002 30 "TXN_2").1 = twoWalletSt)) := by
  have hs : findWalletByUserId twoWalletSt.wallets 1 =
      some ⟨1, 1, 1000000000001, 100⟩ := rfl
  have hr : findWalletByNumber twoWalletSt.wallets 1000000000002 =
      some ⟨2, 2, 1000000000002, 5⟩ := rfl
  have hfresh : ∀ t ∈ twoWalletSt.txns,
      t.reference ≠ "TXN_2" ++ "_debit" ∧ t.reference ≠ "TXN_2" ++ "_credit" := by
    intro t ht
    simp [twoWalletSt] at ht
  exact ⟨hs, hr, hfresh,
    transfer_atomicity twoWalletSt 1 1000000000002 30 "TXN_2" _ _ hs hr hfresh⟩

/-! ## Claim C5 — what amount the confirmation credits -/

/-- Claim C5, counterexample.  The webhook credits the amount reported in the
provider payload, not the amount recorded on the pending entry: an entry
recorded for 5000 naira confirmed by a payload reporting 300000 kobo
credits 3000 naira, not 5000. -/
theorem webhook_credits_payload_amount_cex :
    (findTxnByReference pendingDepositSt.txns "r").map Txn.amount =
      some 5000 ∧
    (findTxnByReference
        (paystackWebhook pendingDepositSt "r" true 300000).1.txns "r").map
        Txn.status = some TxnStatus.SUCCESS ∧
    balanceOfW (paystackWebhook pendingDepositSt "r" true 300000).1.wallets 1 =
      3000 ∧
    (3000 : Rat) ≠ 5000 := by
  norm_num [pendingDepositSt, paystackWebhook, findTxnByReference,
    findWalletById, setTxnStatus, creditWallet, balanceOfW, List.find?]

/-- Claim C5, amended.  When the webhook moves a pending entry to `SUCCESS`,
the amount credited to the wallet is the webhook payload's minor-unit
amount divided by 100 (not the amount recorded on the entry), and the
status update and the balance credit are applied together in the same
atomic step. -/
theorem webhook_credit_is_payload_amount (s : St) (ref : String) (amt : Rat)
    (t : Txn)
    (ht : findTxnByReference s.txns ref = some t)
    (hp : t.status = .PENDING)
    (hw : (findWalletById s.wallets t.walletId).isSome) :
    balanceOfW (paystackWebhook s ref true amt).1.wallets t.walletId =
      balanceOfW s.wallets t.walletId + webhookAmountToNaira amt ∧
    findTxnByReference (paystackWebhook s ref true amt).1.txns ref =
      some { t with status := .SUCCESS } := by
  obtain ⟨w, hw_eq⟩ := Option.isSome_iff_exists.mp hw
  have hT : (paystackWebhook s ref true amt).1 =
      ⟨creditWallet s.wallets t.walletId (amt / 100),
       setTxnStatus s.txns ref .SUCCESS⟩ := by
    simp [paystackWebhook, ht, hp, hw_eq]
  rw [hT]
  constructor
  · exact balanceOfW_creditWallet_self _ _ _ hw
  · rw [findTxnByReference_setTxnStatus, ht]
    rfl

/-- Witness for `webhook_credit_is_payload_amount` at the concrete pending
deposit: payload amount 500000 kobo credits 5000 naira. -/
theorem webhook_credit_is_payload_amount_witness :
    findTxnByReference pendingDepositSt.txns "r" =
      some ⟨"r", .DEPOSIT, 5000, .PENDING, 1, none⟩ ∧
    (findWalletById pendingDepositSt.wallets 1).isSome = true ∧
    (balanceOfW (paystackWebhook pendingDepositSt "r" true 500000).1.wallets 1 =
        balanceOfW pendingDepositSt.wallets 1 + webhookAmountToNaira 500000 ∧
      findTxnByReference
          (paystackWebhook pendingDepositSt "r" true 500000).1.txns "r" =
        some ⟨"r", .DEPOSIT, 5000, .SUCCESS, 1, none⟩) :=
  ⟨rfl, rfl,
    webhook_credit_is_payload_amount pendingDepositSt "r" 500000 _ rfl rfl (by rfl)⟩

/-! ## Claim C6 — deposit initiation has no side effects on balances -/

/-- Claim C6.  `depositFunds` never changes any wallet balance; when the
provider call fails the state is fully unchanged and the result is not a
success (specifically, once validation and wallet lookup have passed, the
result is the provider error); and a success result means the provider call
succeeded and exactly one `PENDING` deposit entry was appended. -/
theorem deposit_initiation_no_side_effects (s : St) (u : Nat) (a : Rat)
    (ref : String) (ok : Bool) :
    (depositFunds s u a ref ok).1.wallets = s.wallets ∧
    (ok = false → (depositFunds s u a ref ok).1 = s ∧
      ∀ r, (depositFunds s u a ref ok).2 ≠ .ok r) ∧
    (¬a < 100 → ∀ w, findWalletByUserId s.wallets u = some w → ok = false →
      (depositFunds s u a ref ok).2 = .providerError) ∧
    (∀ r, (depositFunds s u a ref ok).2 = .ok r →
      ok = true ∧ ∃ w, findWalletByUserId s.wallets u = some w ∧
        (depositFunds s u a ref ok).1.txns =
          s.txns ++ [⟨ref, .DEPOSIT, a, .PENDING, w.id, none⟩]) := by
  by_cases hv : a < 100
  · have hT : depositFunds s u a ref ok = (s, .validationError) := by
      simp [depositFunds, hv]
    rw [hT]
    exact ⟨rfl, fun _ => ⟨rfl, fun r h => by simp at h⟩,
      fun h100 => absurd hv h100, fun r h => by simp at h⟩
  · cases hw : findWalletByUserId s.wallets u with
    | none =>
      have hT : depositFunds s u a ref ok = (s, .walletNotFound) := by
        simp [depositFunds, hv, hw]
      rw [hT]
      refine ⟨rfl, fun _ => ⟨rfl, fun r h => by simp at h⟩, ?_, fun r h => by simp at h⟩
      intro _ w hww
      cases hww
    | some w =>
      cases ok with
      | false =>
        have hT : depositFunds s u a ref false = (s, .providerError) := by
          simp [depositFunds, hv, hw]
        rw [hT]
        exact ⟨rfl, fun _ => ⟨rfl, fun r h => by simp at h⟩,
          fun _ _ _ _ => rfl, fun r h => by simp at h⟩
      | true =>
        have hT : depositFunds s u a ref true =
            ({ s with txns :=
                s.txns ++ [⟨ref, .DEPOSIT, a, .PENDING, w.id, none⟩] },
              .ok ref) := by
          simp [depositFunds, hv, hw]
        rw [hT]
        refine ⟨rfl, ?_, ?_, ?_⟩
        · intro h
          simp at h
        · intro _ _ _ h
          simp at h
        · intro r _
          exact ⟨rfl, w, rfl, rfl⟩

/-- Witness for `deposit_initiation_no_side_effects`: provider failure at a
concrete state leaves the state untouched and reports the provider error. -/
theorem deposit_initiation_no_side_effects_witness :
    (depositFunds oneWalletSt 1 5000 "TXN_4" false).1 = oneWalletSt ∧
    (depositFunds oneWalletSt 1 5000 "TXN_4" false).2 = .providerError := by
  have h := deposit_initiation_no_side_effects oneWalletSt 1 5000 "TXN_4" false
  exact ⟨(h.2.1 rfl).1, h.2.2.1 (by norm_num) _ rfl rfl⟩

/-! ## Claim C7 — self-transfer is rejected without side effects -/

/-- Claim C7.  A transfer whose sender wallet and recipient wallet are the
same row (equal ids) is rejected as a self-transfer with the state fully
unchanged, for any well-formed request (13-digit wallet number, amount at
least 1). -/
theorem self_transfer_rejected (s : St) (u wn : Nat) (a : Rat) (ref : String)
    (sender recipient : Wallet)
    (hval : ¬((toString wn).length ≠ 13 ∨ a < 1))
    (hs : findWalletByUserId s.wallets u = some sender)
    (hr : findWalletByNumber s.wallets wn = some recipient)
    (hid : sender.id = recipient.id) :
    transferFunds s u wn a ref = (s, .selfTransfer) := by
  simp [transferFunds, hval, hs, hr, hid]

/-- Witness for `self_transfer_rejected`: user 1 sending 10 to their own
wallet number. -/
theorem self_transfer_rejected_witness :
    ¬((toString (1000000000000 : Nat)).length ≠ 13 ∨ (10 : Rat) < 1) ∧
    transferFunds oneWalletSt 1 1000000000000 10 "TXN_5" =
      (oneWalletSt, .selfTransfer) := by
  have hlen : (toString (1000000000000 : Nat)).length = 13 := by decide
  have hval : ¬((toString (1000000000000 : Nat)).length ≠ 13 ∨ (10 : Rat) < 1) := by
    rintro (h1 | h2)
    · exact h1 hlen
    · norm_num at h2
  exact ⟨hval,
    self_transfer_rejected oneWalletSt 1 1000000000000 10 "TXN_5" _ _ hval rfl rfl rfl⟩

/-! ## Claim C8 — major/minor unit conversion -/

/-- Claim C8, counterexample.  The outbound conversion is
`Math.round(amount * 100)`, not a pure multiplication: the accepted deposit
amount `100.555` is sent as `10056` kobo, which is not `100.555 × 100`, and
converting `10056` back gives `100.56`, not the original amount — the round
trip is not the identity on all accepted amounts. -/
theorem kobo_roundtrip_not_exact :
    (100 : Rat) ≤ 100555 / 1000 ∧
    ((initializeTransactionKobo (100555 / 1000) : Int) : Rat) ≠
      (100555 / 1000) * 100 ∧
    webhookAmountToNaira ((initializeTransactionKobo (100555 / 1000) : Int) : Rat) ≠
      100555 / 1000 := by
  norm_num [initializeTransactionKobo, webhookAmountToNaira, round_eq]

/-- Claim C8, amended.  For every amount with at most two decimal places
(`a × 100` an integer) the conversion is the pure multiplicative transform:
the kobo amount sent is exactly `a × 100`, and dividing the kobo amount by
100 recovers `a`, so the round trip is the identity on such amounts. -/
theorem kobo_conversion_exact_on_two_decimals (a : Rat)
    (h : ∃ m : ℤ, a * 100 = (m : Rat)) :
    ((initializeTransactionKobo a : Int) : Rat) = a * 100 ∧
    webhookAmountToNaira ((initializeTransactionKobo a : Int) : Rat) = a := by
  obtain ⟨m, hm⟩ := h
  have h1 : initializeTransactionKobo a = m := by
    rw [initializeTransactionKobo, hm, round_intCast]
  constructor
  · rw [h1, hm]
  · rw [h1, webhookAmountToNaira,
      div_eq_iff (by norm_num : (100 : Rat) ≠ 0)]
    exact hm.symm

/-- Witness for `kobo_conversion_exact_on_two_decimals` at `a = 5000`. -/
theorem kobo_conversion_exact_on_two_decimals_witness :
    (∃ m : ℤ, (5000 : Rat) * 100 = (m : Rat)) ∧
    (((initializeTransactionKobo 5000 : Int) : Rat) = 5000 * 100 ∧
      webhookAmountToNaira ((initializeTransactionKobo 5000 : Int) : Rat) = 5000) :=
  ⟨⟨500000, by norm_num⟩,
    kobo_conversion_exact_on_two_decimals 5000 ⟨500000, by norm_num⟩⟩

/-! ## Claim C9 — wallet-number generation -/

/-- Claim C9, counterexample.  There is no collision-check-and-retry loop:
when the single draw repeats an existing wallet's number, the insert hits
the unique constraint on `walletNumber` and the whole creation fails and
rolls back — no wallet is created at all, instead of generation being
retried until a new wallet with a fresh number is inserted as the claim
states. -/
theorem wallet_number_collision :
    generateWalletNumber 0 = w0.walletNumber ∧
    createWalletForOwner [w0] 2 2 0 = none :=
  ⟨rfl, rfl⟩

/-- Claim C9, amended.  Wallet creation draws a 13-digit number once,
uniformly in `[10^12, 10^13 - 1]`, with no collision check before the
insert and no retry: when the drawn number collides with an existing
wallet's number, the insert fails on the unique constraint and the whole
creation rolls back with no wallet committed; only when the draw is fresh
is the wallet inserted, with balance 0 and a number that differs from
every pre-existing wallet's. -/
theorem createWalletForOwner_no_retry (ws : List Wallet)
    (newId ownerId r : Nat) :
    (ws.any (fun w => w.walletNumber == generateWalletNumber r) = true →
      createWalletForOwner ws newId ownerId r = none) ∧
    (ws.any (fun w => w.walletNumber == generateWalletNumber r) = false →
      ∃ w : Wallet,
        createWalletForOwner ws newId ownerId r = some (ws ++ [w]) ∧
        w.userId = ownerId ∧ w.balance = 0 ∧
        1000000000000 ≤ w.walletNumber ∧ w.walletNumber ≤ 9999999999999 ∧
        ∀ v ∈ ws, v.walletNumber ≠ w.walletNumber) := by
  constructor
  · intro h
    simp [createWalletForOwner, h]
  · intro h
    refine ⟨⟨newId, ownerId, generateWalletNumber r, 0⟩, ?_, rfl, rfl, ?_, ?_, ?_⟩
    · simp [createWalletForOwner, h]
    · show 1000000000000 ≤ generateWalletNumber r
      unfold generateWalletNumber
      omega
    · show generateWalletNumber r ≤ 9999999999999
      unfold generateWalletNumber
      omega
    · intro v hv
      have hall := List.any_eq_false.mp h v hv
      simpa using hall

/-- Witness for `createWalletForOwner_no_retry`: the draw that collides
with the one-wallet store makes creation fail, and the same draw on the
empty store inserts the wallet. -/
theorem createWalletForOwner_no_retry_witness :
    ([w0].any (fun w => w.walletNumber == generateWalletNumber 0) = true) ∧
    createWalletForOwner [w0] 3 3 0 = none ∧
    (([] : List Wallet).any
      (fun w => w.walletNumber == generateWalletNumber 0) = false) ∧
    ∃ w : Wallet,
      createWalletForOwner [] 2 2 0 = some ([] ++ [w]) ∧
      w.userId = 2 ∧ w.balance = 0 ∧
      1000000000000 ≤ w.walletNumber ∧ w.walletNumber ≤ 9999999999999 ∧
      ∀ v ∈ ([] : List Wallet), v.walletNumber ≠ w.walletNumber :=
  ⟨rfl, (createWalletForOwner_no_retry [w0] 3 3 0).1 rfl, rfl,
    (createWalletForOwner_no_retry ([] : List Wallet) 2 2 0).2 rfl⟩

/-! ## Claim C10 — JWT callers bypass permission checks -/

/-- Claim C10.  A request authenticated through the JWT branch passes every
`requirePermission(p)` check, whatever the permission string; only API-key
contexts are constrained, where the check is membership of `p` in the key's
permission list. -/
theorem jwt_passes_every_permission_check (p : String) (perms : List String) :
    requirePermission p jwtAuthCtx = true ∧
    requirePermission p (apiKeyAuthCtx perms) = perms.contains p := by
  constructor <;> simp [requirePermission, jwtAuthCtx, apiKeyAuthCtx]

/-! ## Claim C4 — non-negativity and balance accounting over sequences -/

/-- The `deltaFor` distributes over concatenation of delta lists. -/
theorem deltaFor_append (j : Nat) (l1 l2 : List (Nat × Rat)) :
    deltaFor j (l1 ++ l2) = deltaFor j l1 + deltaFor j l2 := by
  induction l1 with
  | nil => simp [deltaFor]
  | cons p l ih =>
    show (if p.1 = j then p.2 else 0) + deltaFor j (l ++ l2) = _
    rw [ih]
    show _ = (if p.1 = j then p.2 else 0) + deltaFor j l + deltaFor j l2
    ring

/-- No operation changes the list of wallet ids (rows are never inserted,
removed or re-keyed by the three handlers). -/
theorem runOp_ids (s : St) (op : Op) :
    (runOp s op).wallets.map Wallet.id = s.wallets.map Wallet.id := by
  cases op with
  | deposit u a ref ok =>
    show (depositFunds s u a ref ok).1.wallets.map Wallet.id = _
    rw [depositFunds_wallets]
  | webhook ref stS amt =>
    show (paystackWebhook s ref stS amt).1.wallets.map Wallet.id = _
    cases hf : findTxnByReference s.txns ref with
    | none => simp [paystackWebhook, hf]
    | some t =>
      by_cases hst : t.status == .SUCCESS
      · simp [paystackWebhook, hf, hst]
      · cases stS with
        | false => simp [paystackWebhook, hf, hst]
        | true =>
          cases hw : findWalletById s.wallets t.walletId with
          | none => simp [paystackWebhook, hf, hst, hw]
          | some w => simp [paystackWebhook, hf, hst, hw, creditWallet_map_id]
  | transfer u wn a ref =>
    show (transferFunds s u wn a ref).1.wallets.map Wallet.id = _
    by_cases hval : (toString wn).length ≠ 13 ∨ a < 1
    · simp [transferFunds, hval]
    · cases hsend : findWalletByUserId s.wallets u with
      | none => simp [transferFunds, hval, hsend]
      | some sender =>
        cases hrec : findWalletByNumber s.wallets wn with
        | none => simp [transferFunds, hval, hsend, hrec]
        | some recipient =>
          by_cases hself : sender.id == recipient.id
          · simp [transferFunds, hval, hsend, hrec, hself]
          · by_cases hib : sender.balance < a
            · simp [transferFunds, hval, hsend, hrec, hself, hib]
            · simp [transferFunds, hval, hsend, hrec, hself, hib,
                creditWallet_map_id]

/-- Per-operation accounting: the balance of every wallet moves by exactly
the total of the operation's accepted deltas for it. -/
theorem runOp_balance (s : St) (op : Op) (j : Nat) :
    balanceOfW (runOp s op).wallets j =
      balanceOfW s.wallets j + deltaFor j (opDeltas s op) := by
  cases op with
  | deposit u a ref ok =>
    show balanceOfW (depositFunds s u a ref ok).1.wallets j = _
    rw [depositFunds_wallets]
    simp [opDeltas, deltaFor]
  | webhook ref stS amt =>
    show balanceOfW (paystackWebhook s ref stS amt).1.wallets j = _
    cases hf : findTxnByReference s.txns ref with
    | none => simp [paystackWebhook, hf, opDeltas, deltaFor]
    | some t =>
      by_cases hst : t.status == .SUCCESS
      · simp [paystackWebhook, hf, hst, opDeltas, deltaFor]
      · cases stS with
        | false => simp [paystackWebhook, hf, hst, opDeltas, deltaFor]
        | true =>
          cases hw : findWalletById s.wallets t.walletId with
          | none => simp [paystackWebhook, hf, hst, hw, opDeltas, deltaFor]
          | some w =>
            have hT : (paystackWebhook s ref true amt).1 =
                ⟨creditWallet s.wallets t.walletId (amt / 100),
                 setTxnStatus s.txns ref .SUCCESS⟩ := by
              simp [paystackWebhook, hf, hst, hw]
            have hD : opDeltas s (.webhook ref true amt) =
                [(t.walletId, amt / 100)] := by
              simp [opDeltas, hf, hst, hw]
            rw [hT, hD]
            by_cases hj : j = t.walletId
            · subst hj
              rw [balanceOfW_creditWallet_self _ _ _ (by rw [hw]; rfl)]
              simp [deltaFor]
            · rw [balanceOfW_creditWallet_ne _ _ _ _ hj]
              have hwj : (t.walletId = j) = False := eq_false (Ne.symm hj)
              simp [deltaFor, hwj]
  | transfer u wn a ref =>
    show balanceOfW (transferFunds s u wn a ref).1.wallets j = _
    by_cases hval : (toString wn).length ≠ 13 ∨ a < 1
    · simp [transferFunds, hval, opDeltas, deltaFor]
    · cases hsend : findWalletByUserId s.wallets u with
      | none => simp [transferFunds, hval, hsend, opDeltas, deltaFor]
      | some sender =>
        cases hrec : findWalletByNumber s.wallets wn with
        | none => simp [transferFunds, hval, hsend, hrec, opDeltas, deltaFor]
        | some recipient =>
          by_cases hself : sender.id == recipient.id
          · simp [transferFunds, hval, hsend, hrec, hself, opDeltas, deltaFor]
          · by_cases hib : sender.balance < a
            · simp [transferFunds, hval, hsend, hrec, hself, hib, opDeltas,
                deltaFor]
            · have hsid : sender.id ≠ recipient.id := by simpa using hself
              have hsend_some : (findWalletById s.wallets sender.id).isSome :=
                List.find?_isSome.mpr
                  ⟨sender, List.mem_of_find?_eq_some hsend, by simp⟩
              have hrec_some : (findWalletById s.wallets recipient.id).isSome :=
                List.find?_isSome.mpr
                  ⟨recipient, List.mem_of_find?_eq_some hrec, by simp⟩
              have hT : (transferFunds s u wn a ref).1.wallets =
                  creditWallet (creditWallet s.wallets sender.id (-a))
                    recipient.id a := by
                simp [transferFunds, hval, hsend, hrec, hself, hib]
              have hD : opDeltas s (.transfer u wn a ref) =
                  [(sender.id, -a), (recipient.id, a)] := by
                simp [opDeltas, hval, hsend, hrec, hself, hib]
              rw [hT, hD]
              by_cases hj1 : j = sender.id
              · subst hj1
                rw [balanceOfW_creditWallet_ne _ _ _ _ hsid,
                  balanceOfW_creditWallet_self _ _ _ hsend_some]
                have hrs : (recipient.id = sender.id) = False :=
                  eq_false (Ne.symm hsid)
                simp [deltaFor, hrs]
              · by_cases hj2 : j = recipient.id
                · subst hj2
                  rw [balanceOfW_creditWallet_self, balanceOfW_creditWallet_ne]
                  · have hsr : (sender.id = recipient.id) = False :=
                      eq_false hsid
                    simp [deltaFor, hsr]
                  · exact Ne.symm hsid
                  · rw [findWalletById_creditWallet, Option.isSome_map']
                    exact hrec_some
                · rw [balanceOfW_creditWallet_ne _ _ _ _ hj2,
                    balanceOfW_creditWallet_ne _ _ _ _ hj1]
                  have h1 : (sender.id = j) = False := eq_false (Ne.symm hj1)
                  have h2 : (recipient.id = j) = False := eq_false (Ne.symm hj2)
                  simp [deltaFor, h1, h2]

/-- Per-operation non-negativity: given unique wallet ids and a
non-negative webhook amount, one operation keeps all balances ≥ 0. -/
theorem runOp_nonneg (s : St) (op : Op)
    (hnn : ∀ w ∈ s.wallets, 0 ≤ w.balance)
    (hnd : (s.wallets.map Wallet.id).Nodup)
    (hamt : 0 ≤ opWebhookAmount op) :
    ∀ w ∈ (runOp s op).wallets, 0 ≤ w.balance := by
  cases op with
  | deposit u a ref ok =>
    show ∀ w ∈ (depositFunds s u a ref ok).1.wallets, 0 ≤ w.balance
    rw [depositFunds_wallets]
    exact hnn
  | webhook ref stS amt =>
    show ∀ w ∈ (paystackWebhook s ref stS amt).1.wallets, 0 ≤ w.balance
    cases hf : findTxnByReference s.txns ref with
    | none => simpa [paystackWebhook, hf] using hnn
    | some t =>
      by_cases hst : t.status == .SUCCESS
      · simpa [paystackWebhook, hf, hst] using hnn
      · cases stS with
        | false => simpa [paystackWebhook, hf, hst] using hnn
        | true =>
          cases hw : findWalletById s.wallets t.walletId with
          | none => simpa [paystackWebhook, hf, hst, hw] using hnn
          | some w =>
            have hT : (paystackWebhook s ref true amt).1.wallets =
                creditWallet s.wallets t.walletId (amt / 100) := by
              simp [paystackWebhook, hf, hst, hw]
            rw [hT]
            exact creditWallet_nonneg _ _ _ hnn
              (div_nonneg (by simpa [opWebhookAmount] using hamt) (by norm_num))
  | transfer u wn a ref =>
    show ∀ w ∈ (transferFunds s u wn a ref).1.wallets, 0 ≤ w.balance
    by_cases hval : (toString wn).length ≠ 13 ∨ a < 1
    · simpa [transferFunds, hval] using hnn
    · cases hsend : findWalletByUserId s.wallets u with
      | none => simpa [transferFunds, hval, hsend] using hnn
      | some sender =>
        cases hrec : findWalletByNumber s.wallets wn with
        | none => simpa [transferFunds, hval, hsend, hrec] using hnn
        | some recipient =>
          by_cases hself : sender.id == recipient.id
          · simpa [transferFunds, hval, hsend, hrec, hself] using hnn
          · by_cases hib : sender.balance < a
            · simpa [transferFunds, hval, hsend, hrec, hself, hib] using hnn
            · have hT : (transferFunds s u wn a ref).1.wallets =
                  creditWallet (creditWallet s.wallets sender.id (-a))
                    recipient.id a := by
                simp [transferFunds, hval, hsend, hrec, hself, hib]
              rw [hT]
              have ha : (0 : Rat) ≤ a := by
                push_neg at hval
                linarith [hval.2]
              have hdeb := creditWallet_debit_nonneg s.wallets sender a hnn hnd
                (List.mem_of_find?_eq_some hsend) (not_lt.mp hib)
              exact creditWallet_nonneg _ _ _ hdeb ha

/-- Claim C4.  Starting from any state with unique wallet ids and
non-negative balances, and given that all webhook payload amounts are
non-negative, after any sequence of operations every wallet balance is
still ≥ 0, and each wallet's final balance is its initial balance plus the
sum of the accepted deltas the sequence applied to it (rejected operations
contribute nothing). -/
theorem balances_nonneg_and_fully_accounted (s : St) (ops : List Op)
    (hnn : ∀ w ∈ s.wallets, 0 ≤ w.balance)
    (hnd : (s.wallets.map Wallet.id).Nodup)
    (hamt : ∀ op ∈ ops, 0 ≤ opWebhookAmount op) :
    (∀ w ∈ (runOps s ops).wallets, 0 ≤ w.balance) ∧
    (∀ j, balanceOfW (runOps s ops).wallets j =
      balanceOfW s.wallets j + deltaFor j (seqDeltas s ops)) := by
  induction ops generalizing s with
  | nil =>
    exact ⟨hnn, fun j => by simp [runOps, seqDeltas, deltaFor]⟩
  | cons op ops ih =>
    have hop : 0 ≤ opWebhookAmount op := hamt op (by simp)
    have hnn1 := runOp_nonneg s op hnn hnd hop
    have hnd1 : ((runOp s op).wallets.map Wallet.id).Nodup := by
      rw [runOp_ids]
      exact hnd
    obtain ⟨h1, h2⟩ :=
      ih (runOp s op) hnn1 hnd1 (fun o ho => hamt o (List.mem_cons_of_mem _ ho))
    refine ⟨h1, fun j => ?_⟩
    show balanceOfW (runOps (runOp s op) ops).wallets j = _
    rw [h2 j, runOp_balance s op j]
    show _ = balanceOfW s.wallets j +
      deltaFor j (opDeltas s op ++ seqDeltas (runOp s op) ops)
    rw [deltaFor_append]
    ring

/-- Witness for `balances_nonneg_and_fully_accounted`: a deposit, its
confirmation and a transfer run on the concrete two-wallet state. -/
theorem balances_nonneg_and_fully_accounted_witness :
    (∀ w ∈ twoWalletSt.wallets, 0 ≤ w.balance) ∧
    (twoWalletSt.wallets.map Wallet.id).Nodup ∧
    (∀ op ∈ [Op.deposit 1 5000 "TXN_7" true,
        Op.webhook "TXN_7" true 500000,
        Op.transfer 1 1000000000002 30 "TXN_8"], 0 ≤ opWebhookAmount op) ∧
    ((∀ w ∈ (runOps twoWalletSt [Op.deposit 1 5000 "TXN_7" true,
        Op.webhook "TXN_7" true 500000,
        Op.transfer 1 1000000000002 30 "TXN_8"]).wallets, 0 ≤ w.balance) ∧
      (∀ j, balanceOfW (runOps twoWalletSt [Op.deposit 1 5000 "TXN_7" true,
          Op.webhook "TXN_7" true 500000,
          Op.transfer 1 1000000000002 30 "TXN_8"]).wallets j =
        balanceOfW twoWalletSt.wallets j +
          deltaFor j (seqDeltas twoWalletSt [Op.deposit 1 5000 "TXN_7" true,
            Op.webhook "TXN_7" true 500000,
            Op.transfer 1 1000000000002 30 "TXN_8"]))) := by
  have hnn : ∀ w ∈ twoWalletSt.wallets, 0 ≤ w.balance := by
    intro w hw
    simp [twoWalletSt] at hw
    rcases hw with h | h <;> subst h <;> norm_num
  have hnd : (twoWalletSt.wallets.map Wallet.id).Nodup := by
    simp [twoWalletSt]
  have hamt : ∀ op ∈ [Op.deposit 1 5000 "TXN_7" true,
      Op.webhook "TXN_7" true 500000,
      Op.transfer 1 1000000000002 30 "TXN_8"], 0 ≤ opWebhookAmount op := by
    intro op hop
    simp at hop
    rcases hop with h | h | h <;> subst h <;> simp [opWebhookAmount]
  exact ⟨hnn, hnd, hamt,
    balances_nonneg_and_fully_accounted twoWalletSt _ hnn hnd hamt⟩

end WalletService
